import Mathlib

/-!
Shallow embedding of the incremental crawl-and-notify engine in
src/divar_bot.py: the seen-set store (load_sent_posts, save_sent_posts),
the paginated crawl (get_new_posts driven by successive search_divar
responses), the fan-out delivery loop (send_to_telegram_users), and the
cycle drivers (periodic_check, and the identically structured check_new
branch of button_handler).
-/

namespace DivarBot

/-- Python truthiness of an optional string field obtained via dict.get:
absent keys and keys mapped to None give none, and both none and the empty
string are falsy (`if token:` / `if image_url:` in the source). -/
def optTruthy : Option String → Bool
  | none => false
  | some s => s ≠ ""

/-- The data dict of a widget as read by the source: get_new_posts reads
only token (line 213); send_to_telegram_users additionally reads title,
image_url, top_description_text, middle_description_text and red_text
(lines 149-155). Absent keys are none. -/
structure WidgetData where
  token : Option String
  title : Option String
  image_url : Option String
  top_description_text : Option String
  middle_description_text : Option String
  red_text : Option String
deriving DecidableEq

/-- One entry of the list_widgets array of a search response: a type tag
and a data dict (only POST_ROW-typed entries are listings). -/
structure Widget where
  widget_type : String
  data : WidgetData
deriving DecidableEq

/-- The pagination block of a search response: a boolean has_next_page
flag and an opaque next-page token (data), absent when malformed. -/
structure Pagination where
  has_next_page : Bool
  data : Option String
deriving DecidableEq

/-- One successful JSON response of search_divar: the widget list and the
pagination block (lines 209 and 219 read these with empty defaults). -/
structure SearchResult where
  list_widgets : List Widget
  pagination : Pagination
deriving DecidableEq

/-- The persisted state file /data/sent_posts.json as the store sees it:
missing, unreadable (an exception raised while opening or reading),
unparsable JSON, or a valid JSON array of token strings. -/
inductive FileState where
  | missing : FileState
  | ioError : FileState
  | corrupt : FileState
  | valid : List String → FileState
deriving DecidableEq

/-- load_sent_posts (src/divar_bot.py lines 30-39): returns the set of the
parsed array's tokens; a missing file returns the empty set, and the
surrounding try/except turns any read or parse exception into the empty
set as well, so the function is total and never fails its caller. -/
def load_sent_posts : FileState → Finset String
  | FileState.missing => ∅
  | FileState.ioError => ∅
  | FileState.corrupt => ∅
  | FileState.valid l => l.toFinset

/-- save_sent_posts (lines 41-48): writes list(sent_posts) as a JSON
array (Python set iteration order is unspecified; the model writes the
elements in sorted order, which carries the same set). This models the
successful write; a raised exception is only logged and leaves the
previous file state in place. -/
def save_sent_posts (sent_posts : Finset String) : FileState :=
  FileState.valid (sent_posts.sort (· ≤ ·))

/-- The inner widget loop of get_new_posts (lines 210-217): scan the
page's widgets in order; a POST_ROW widget whose token is truthy and not
yet in sent_posts is appended to new_posts and its token is added to
sent_posts immediately; every other widget is skipped. -/
def processWidgets : List Widget → List Widget → Finset String → List Widget × Finset String
  | [], new_posts, sent_posts => (new_posts, sent_posts)
  | w :: ws, new_posts, sent_posts =>
    if w.widget_type = "POST_ROW" then
      match w.data.token with
      | some t =>
        if t ≠ "" ∧ t ∉ sent_posts then
          processWidgets ws (new_posts ++ [w]) (insert t sent_posts)
        else
          processWidgets ws new_posts sent_posts
      | none => processWidgets ws new_posts sent_posts
    else
      processWidgets ws new_posts sent_posts

/-- The while-loop of get_new_posts (lines 206-229). upstream lists the
responses the successive search_divar calls produce, first request first;
none is a transport failure (search_divar returns None). After a page is
processed, traversal continues only when has_next_page is true and the
pagination cursor is present; a falsy result (failure) ends the loop with
the accumulated new_posts and sent_posts intact. A request past the end
of upstream is modelled as a failure. -/
def crawlPages : List (Option SearchResult) → List Widget → Finset String → List Widget × Finset String
  | [], new_posts, sent_posts => (new_posts, sent_posts)
  | none :: _, new_posts, sent_posts => (new_posts, sent_posts)
  | some result :: rest, new_posts, sent_posts =>
    let p := processWidgets result.list_widgets new_posts sent_posts
    if result.pagination.has_next_page then
      match result.pagination.data with
      | some _ => crawlPages rest p.1 p.2
      | none => p
    else
      p

/-- get_new_posts (lines 196-232): load sent_posts, crawl the pages, then
reverse new_posts to oldest-first and return it with the updated
sent_posts. A failed first fetch returns the empty list and the loaded
set untouched (reversing the empty list is the identity, so the single
definition covers the early return on line 203). -/
def get_new_posts (fs : FileState) (upstream : List (Option SearchResult)) : List Widget × Finset String :=
  let sent_posts := load_sent_posts fs
  let r := crawlPages upstream [] sent_posts
  (r.1.reverse, r.2)

/-- One attempted send of the per-recipient loop in send_to_telegram_users:
a photo message when image_url is truthy, otherwise a text message, with
the outcome of the attempt (true when the platform call succeeded). -/
inductive SendAttempt where
  | photo : String → Bool → SendAttempt
  | text : String → Bool → SendAttempt
deriving DecidableEq

/-- The chat id an attempt was addressed to. -/
def SendAttempt.chat_id : SendAttempt → String
  | SendAttempt.photo c _ => c
  | SendAttempt.text c _ => c

/-- The outcome recorded for an attempt. -/
def SendAttempt.ok : SendAttempt → Bool
  | SendAttempt.photo _ b => b
  | SendAttempt.text _ b => b

/-- The HTML message built in send_to_telegram_users (lines 157-166);
Python str-formats a missing token as the text None. -/
def buildMessage (d : WidgetData) : String :=
  let token := match d.token with
    | some t => t
    | none => "None"
  let title := match d.title with
    | some t => t
    | none => "بدون عنوان"
  let top_desc := d.top_description_text.getD ""
  let middle_desc := d.middle_description_text.getD ""
  let red_text := d.red_text.getD ""
  let post_url := "https://divar.ir/v/" ++ token
  "🏠 <b>" ++ title ++ "</b>\n\n"
    ++ (if top_desc ≠ "" then "💰 " ++ top_desc ++ "\n" else "")
    ++ (if middle_desc ≠ "" then "💵 " ++ middle_desc ++ "\n" else "")
    ++ (if red_text ≠ "" then "⚠️ " ++ red_text ++ "\n" else "")
    ++ "\n🔗 <a href=\x27" ++ post_url ++ "\x27>مشاهده آگهی</a>"

/-- The per-recipient loop of send_to_telegram_users (lines 170-189):
each chat id is attempted in order; a raised send error is caught by the
except clause inside the loop body, so the loop always advances to the
next chat id. The environment sendOk gives each attempt's outcome. -/
def sendLoop (sendOk : String → Bool) (image_truthy : Bool) : List String → List SendAttempt
  | [] => []
  | chat_id :: rest =>
    (if image_truthy then SendAttempt.photo chat_id (sendOk chat_id)
     else SendAttempt.text chat_id (sendOk chat_id)) :: sendLoop sendOk image_truthy rest

/-- send_to_telegram_users (lines 146-194): build the message, attempt
every chat id, return True. The outer except returning False fires only
when code outside the per-recipient loop raises, which the dict reads
with defaults and string formatting cannot, so the Python return value is
the constant True. The message and the attempt trace are returned
alongside for specification purposes; the Python function returns only
the Bool. -/
def send_to_telegram_users (sendOk : String → Bool) (post_data : Widget) (chat_ids : List String) : Bool × String × List SendAttempt :=
  let d := post_data.data
  (true, buildMessage d, sendLoop sendOk (optTruthy d.image_url) chat_ids)

/-- periodic_check (lines 350-372), structurally identical to the
check_new branch of button_handler (lines 287-317): run get_new_posts;
when new_posts is nonempty, send each post to every chat id (each listing
send wrapped in its own try/except, so every listing is attempted) and
then call save_sent_posts(sent_posts); when new_posts is empty no save
call is made and the file keeps its previous state. Returns the file
state after the cycle, whether save_sent_posts was called, and the
delivery trace of each listing. -/
def periodic_check (sendOk : String → Bool) (chat_ids : List String) (fs : FileState) (upstream : List (Option SearchResult)) : FileState × Bool × List (List SendAttempt) :=
  let r := get_new_posts fs upstream
  if r.1.isEmpty then
    (fs, false, [])
  else
    (save_sent_posts r.2, true,
      r.1.map fun post => (send_to_telegram_users sendOk post chat_ids).2.2)

/-- The truthy POST_ROW tokens of one page's widget list: exactly the
identifiers the widget loop can ever accept from that page. -/
def postTokens : List Widget → Finset String
  | [] => ∅
  | w :: ws =>
    if w.widget_type = "POST_ROW" then
      match w.data.token with
      | some t => if t ≠ "" then insert t (postTokens ws) else postTokens ws
      | none => postTokens ws
    else
      postTokens ws

/-- All widgets the crawl loop iterates over, in traversal (newest-first)
order, following the same continuation decisions as crawlPages. -/
def visitedWidgets : List (Option SearchResult) → List Widget
  | [] => []
  | none :: _ => []
  | some result :: rest =>
    result.list_widgets ++
      (if result.pagination.has_next_page then
        match result.pagination.data with
        | some _ => visitedWidgets rest
        | none => []
      else [])

/-- The truthy POST_ROW tokens among the visited widgets. -/
def visitedTokens (upstream : List (Option SearchResult)) : Finset String :=
  postTokens (visitedWidgets upstream)

/-- The identifiers carried by a list of fresh widgets. -/
def freshTokens (posts : List Widget) : Finset String :=
  (posts.filterMap fun w => w.data.token).toFinset

/-- Accumulator-free reformulation of processWidgets, proved equal to it
in processWidgets_eq_freshList; the remaining lemmas recurse on it. -/
def freshList : List Widget → Finset String → List Widget × Finset String
  | [], sent_posts => ([], sent_posts)
  | w :: ws, sent_posts =>
    if w.widget_type = "POST_ROW" then
      match w.data.token with
      | some t =>
        if t ≠ "" ∧ t ∉ sent_posts then
          let r := freshList ws (insert t sent_posts)
          (w :: r.1, r.2)
        else
          freshList ws sent_posts
      | none => freshList ws sent_posts
    else
      freshList ws sent_posts

/-- Accumulator-free reformulation of crawlPages, proved equal to it in
crawlPages_eq_crawlRef. -/
def crawlRef : List (Option SearchResult) → Finset String → List Widget × Finset String
  | [], sent_posts => ([], sent_posts)
  | none :: _, sent_posts => ([], sent_posts)
  | some result :: rest, sent_posts =>
    let p := freshList result.list_widgets sent_posts
    if result.pagination.has_next_page then
      match result.pagination.data with
      | some _ =>
        let q := crawlRef rest p.2
        (p.1 ++ q.1, q.2)
      | none => p
    else
      p

/-- A POST_ROW widget carrying only a token, the single field that
get_new_posts reads. -/
def postRow (t : String) : Widget :=
  ⟨"POST_ROW", ⟨some t, none, none, none, none, none⟩⟩

/-- The listing with identifier A of the concrete two-page scenario. -/
def widgetA : Widget := postRow "A"

/-- The listing with identifier B of the concrete two-page scenario. -/
def widgetB : Widget := postRow "B"

/-- The listing with identifier C of the concrete two-page scenario. -/
def widgetC : Widget := postRow "C"

/-- A POST_ROW widget whose data dict has no token key. -/
def widgetNoToken : Widget :=
  ⟨"POST_ROW", ⟨none, none, none, none, none, none⟩⟩

/-- Page 1 of the concrete scenario: identifiers C then B (newest first),
with a further page available. -/
def page1 : SearchResult := ⟨[widgetC, widgetB], ⟨true, some "cursor1"⟩⟩

/-- Page 2 of the concrete scenario: identifier A, the oldest, and no
further page. -/
def page2 : SearchResult := ⟨[widgetA], ⟨false, none⟩⟩

/-- A single terminal page holding only the already seen listing B. -/
def pageOnlyB : SearchResult := ⟨[widgetB], ⟨false, none⟩⟩

/-- A demonstration recency rank for ordering statements: C newest, then
B, then A. -/
def tsDemo (w : Widget) : Nat :=
  if w.data.token = some "C" then 3
  else if w.data.token = some "B" then 2
  else 1

theorem freshTokens_append (a b : List Widget) :
    freshTokens (a ++ b) = freshTokens a ∪ freshTokens b := by
  simp [freshTokens, List.filterMap_append, List.toFinset_append]

theorem freshTokens_reverse (l : List Widget) :
    freshTokens l.reverse = freshTokens l := by
  simp [freshTokens, List.filterMap_reverse, List.toFinset_reverse]

theorem postTokens_append (a b : List Widget) :
    postTokens (a ++ b) = postTokens a ∪ postTokens b := by
  induction a with
  | nil => simp [postTokens]
  | cons w ws ih =>
    by_cases hw : w.widget_type = "POST_ROW"
    · cases ht : w.data.token with
      | none => simp [postTokens, hw, ht, ih]
      | some t =>
        by_cases h1 : t = ""
        · simp [postTokens, hw, ht, h1, ih]
        · simp [postTokens, hw, ht, h1, ih, Finset.insert_union]
    · simp [postTokens, hw, ih]

theorem processWidgets_eq_freshList (ws np : List Widget) (sent : Finset String) :
    processWidgets ws np sent = (np ++ (freshList ws sent).1, (freshList ws sent).2) := by
  induction ws generalizing np sent with
  | nil => simp [processWidgets, freshList]
  | cons w ws ih =>
    by_cases hw : w.widget_type = "POST_ROW"
    · cases ht : w.data.token with
      | none => simp [processWidgets, freshList, hw, ht, ih]
      | some t =>
        by_cases h1 : t = ""
        · simp [processWidgets, freshList, hw, ht, h1, ih]
        · by_cases h2 : t ∈ sent
          · simp [processWidgets, freshList, hw, ht, h1, h2, ih]
          · simp [processWidgets, freshList, hw, ht, h1, h2, ih]
    · simp [processWidgets, freshList, hw, ih]

theorem crawlPages_eq_crawlRef (up : List (Option SearchResult)) (np : List Widget) (sent : Finset String) :
    crawlPages up np sent = (np ++ (crawlRef up sent).1, (crawlRef up sent).2) := by
  induction up generalizing np sent with
  | nil => simp [crawlPages, crawlRef]
  | cons hd rest ih =>
    cases hd with
    | none => simp [crawlPages, crawlRef]
    | some result =>
      by_cases hn : result.pagination.has_next_page
      · cases hd2 : result.pagination.data with
        | none => simp [crawlPages, crawlRef, hn, hd2, processWidgets_eq_freshList]
        | some d => simp [crawlPages, crawlRef, hn, hd2, processWidgets_eq_freshList, ih]
      · simp [crawlPages, crawlRef, hn, processWidgets_eq_freshList]

theorem get_new_posts_eq (fs : FileState) (upstream : List (Option SearchResult)) :
    get_new_posts fs upstream =
      ((crawlRef upstream (load_sent_posts fs)).1.reverse,
       (crawlRef upstream (load_sent_posts fs)).2) := by
  simp [get_new_posts, crawlPages_eq_crawlRef]

theorem load_save (s : Finset String) : load_sent_posts (save_sent_posts s) = s := by
  simp [load_sent_posts, save_sent_posts, Finset.sort_toFinset]

theorem freshList_snd (ws : List Widget) (sent : Finset String) :
    (freshList ws sent).2 = sent ∪ postTokens ws := by
  induction ws generalizing sent with
  | nil => simp [freshList, postTokens]
  | cons w ws ih =>
    by_cases hw : w.widget_type = "POST_ROW"
    · cases ht : w.data.token with
      | none => simp [freshList, postTokens, hw, ht, ih]
      | some t =>
        by_cases h1 : t = ""
        · simp [freshList, postTokens, hw, ht, h1, ih]
        · by_cases h2 : t ∈ sent
          · simp only [freshList, postTokens, hw, ht, h1, h2, if_true, if_false]
            simp [h1, h2, ih, Finset.union_insert,
              Finset.insert_eq_self.mpr (Finset.mem_union_left (postTokens ws) h2)]
          · simp [freshList, postTokens, hw, ht, h1, h2, ih,
              Finset.insert_union, Finset.union_insert]
    · simp [freshList, postTokens, hw, ih]

theorem freshList_snd_fresh (ws : List Widget) (sent : Finset String) :
    (freshList ws sent).2 = sent ∪ freshTokens (freshList ws sent).1 := by
  induction ws generalizing sent with
  | nil => simp [freshList, freshTokens]
  | cons w ws ih =>
    by_cases hw : w.widget_type = "POST_ROW"
    · cases ht : w.data.token with
      | none => simp [freshList, hw, ht, ih]
      | some t =>
        by_cases h1 : t = ""
        · simp [freshList, hw, ht, h1, ih]
        · by_cases h2 : t ∈ sent
          · simp [freshList, hw, ht, h1, h2, ih]
          · simp only [freshList, hw, ht, h1, h2, if_true, if_false]
            simp [h1, h2, freshTokens, List.filterMap_cons, ht, ih,
              Finset.insert_union, Finset.union_insert]
    · simp [freshList, hw, ih]

theorem freshList_sublist (ws : List Widget) (sent : Finset String) :
    (freshList ws sent).1.Sublist ws := by
  induction ws generalizing sent with
  | nil => simp [freshList]
  | cons w ws ih =>
    by_cases hw : w.widget_type = "POST_ROW"
    · cases ht : w.data.token with
      | none =>
        simp only [freshList, hw, ht, if_true]
        exact (ih sent).cons w
      | some t =>
        by_cases h1 : t = ""
        · simp only [freshList, hw, ht, h1]
          simp only [ne_eq, not_true_eq_false, false_and, if_false]
          exact (ih sent).cons w
        · by_cases h2 : t ∈ sent
          · simp only [freshList, hw, ht]
            simp only [ne_eq, h1, not_false_eq_true, h2, not_true_eq_false, and_false, if_false]
            exact (ih sent).cons w
          · simp only [freshList, hw, ht]
            simp only [ne_eq, h1, not_false_eq_true, h2, not_false_eq_true, and_true, if_true]
            exact (ih (insert t sent)).cons₂ w
    · simp only [freshList, hw, if_false]
      exact (ih sent).cons w

theorem freshList_of_subset (ws : List Widget) (sent : Finset String)
    (h : postTokens ws ⊆ sent) : freshList ws sent = ([], sent) := by
  induction ws generalizing sent with
  | nil => simp [freshList]
  | cons w ws ih =>
    by_cases hw : w.widget_type = "POST_ROW"
    · cases ht : w.data.token with
      | none =>
        simp only [postTokens, hw, ht, if_true] at h
        simp [freshList, hw, ht, ih sent h]
      | some t =>
        by_cases h1 : t = ""
        · simp only [postTokens, hw, ht, h1] at h
          simp only [ne_eq, not_true_eq_false, if_false, if_true] at h
          simp [freshList, hw, ht, h1, ih sent h]
        · have hP : insert t (postTokens ws) ⊆ sent := by
            simpa [postTokens, hw, ht, h1] using h
          have hts : t ∈ sent := hP (Finset.mem_insert_self t (postTokens ws))
          have hws : postTokens ws ⊆ sent :=
            (Finset.insert_subset_iff.mp hP).2
          simp [freshList, hw, ht, h1, hts, ih sent hws]
    · simp only [postTokens, hw, if_false] at h
      simp [freshList, hw, ih sent h]

theorem freshList_mem_truthy (ws : List Widget) (sent : Finset String) :
    ∀ v ∈ (freshList ws sent).1, optTruthy v.data.token = true := by
  induction ws generalizing sent with
  | nil => simp [freshList]
  | cons w ws ih =>
    by_cases hw : w.widget_type = "POST_ROW"
    · cases ht : w.data.token with
      | none => simpa [freshList, hw, ht] using ih sent
      | some t =>
        by_cases h1 : t = ""
        · simpa [freshList, hw, ht, h1] using ih sent
        · by_cases h2 : t ∈ sent
          · simpa [freshList, hw, ht, h1, h2] using ih sent
          · intro v hv
            simp only [freshList, hw, ht] at hv
            simp only [ne_eq, h1, not_false_eq_true, h2, not_true_eq_false, and_true,
              if_true, List.mem_cons] at hv
            rcases hv with hv | hv
            · simp [hv, optTruthy, ht, h1]
            · exact ih (insert t sent) v hv
    · simpa [freshList, hw] using ih sent

theorem crawlRef_snd (up : List (Option SearchResult)) (sent : Finset String) :
    (crawlRef up sent).2 = sent ∪ visitedTokens up := by
  induction up generalizing sent with
  | nil => simp [crawlRef, visitedTokens, visitedWidgets, postTokens]
  | cons hd rest ih =>
    cases hd with
    | none => simp [crawlRef, visitedTokens, visitedWidgets, postTokens]
    | some result =>
      by_cases hn : result.pagination.has_next_page
      · cases hd2 : result.pagination.data with
        | none =>
          simp [crawlRef, visitedTokens, visitedWidgets, hn, hd2,
            postTokens_append, freshList_snd, postTokens]
        | some d =>
          simp [crawlRef, visitedTokens, visitedWidgets, hn, hd2,
            postTokens_append, freshList_snd, ih, Finset.union_assoc]
      · simp [crawlRef, visitedTokens, visitedWidgets, hn,
          postTokens_append, freshList_snd, postTokens]

theorem crawlRef_snd_fresh (up : List (Option SearchResult)) (sent : Finset String) :
    (crawlRef up sent).2 = sent ∪ freshTokens (crawlRef up sent).1 := by
  induction up generalizing sent with
  | nil => simp [crawlRef, freshTokens]
  | cons hd rest ih =>
    cases hd with
    | none => simp [crawlRef, freshTokens]
    | some result =>
      by_cases hn : result.pagination.has_next_page
      · cases hd2 : result.pagination.data with
        | none => simp [crawlRef, hn, hd2, freshList_snd_fresh]
        | some d =>
          simp [crawlRef, hn, hd2, freshTokens_append, ih,
            freshList_snd_fresh, Finset.union_assoc]
      · simp [crawlRef, hn, freshList_snd_fresh]

theorem crawlRef_sublist (up : List (Option SearchResult)) (sent : Finset String) :
    (crawlRef up sent).1.Sublist (visitedWidgets up) := by
  induction up generalizing sent with
  | nil => simp [crawlRef, visitedWidgets]
  | cons hd rest ih =>
    cases hd with
    | none => simp [crawlRef, visitedWidgets]
    | some result =>
      by_cases hn : result.pagination.has_next_page
      · cases hd2 : result.pagination.data with
        | none =>
          simp only [crawlRef, visitedWidgets, hn, hd2, if_true]
          simpa using (freshList_sublist result.list_widgets sent).append (List.nil_sublist [])
        | some d =>
          simp only [crawlRef, visitedWidgets, hn, hd2, if_true]
          exact (freshList_sublist result.list_widgets sent).append
            (ih (freshList result.list_widgets sent).2)
      · simp only [crawlRef, visitedWidgets, hn, if_false]
        simpa using (freshList_sublist result.list_widgets sent).append (List.nil_sublist [])

theorem crawlRef_of_subset (up : List (Option SearchResult)) (sent : Finset String)
    (h : visitedTokens up ⊆ sent) : crawlRef up sent = ([], sent) := by
  induction up generalizing sent with
  | nil => simp [crawlRef]
  | cons hd rest ih =>
    cases hd with
    | none => simp [crawlRef]
    | some result =>
      by_cases hn : result.pagination.has_next_page
      · cases hd2 : result.pagination.data with
        | none =>
          have h1 : postTokens result.list_widgets ⊆ sent := by
            simpa [visitedTokens, visitedWidgets, hn, hd2, postTokens_append,
              postTokens] using h
          simp [crawlRef, hn, hd2, freshList_of_subset result.list_widgets sent h1]
        | some d =>
          have hv : postTokens result.list_widgets ∪ visitedTokens rest ⊆ sent := by
            simpa [visitedTokens, visitedWidgets, hn, hd2, postTokens_append] using h
          have h1 : postTokens result.list_widgets ⊆ sent :=
            (Finset.union_subset_iff.mp hv).1
          have h2 : visitedTokens rest ⊆ sent :=
            (Finset.union_subset_iff.mp hv).2
          simp [crawlRef, hn, hd2, freshList_of_subset result.list_widgets sent h1,
            ih sent h2]
      · have h1 : postTokens result.list_widgets ⊆ sent := by
          simpa [visitedTokens, visitedWidgets, hn, postTokens_append, postTokens] using h
        simp [crawlRef, hn, freshList_of_subset result.list_widgets sent h1]

theorem crawlRef_mem_truthy (up : List (Option SearchResult)) (sent : Finset String) :
    ∀ v ∈ (crawlRef up sent).1, optTruthy v.data.token = true := by
  induction up generalizing sent with
  | nil => simp [crawlRef]
  | cons hd rest ih =>
    cases hd with
    | none => simp [crawlRef]
    | some result =>
      by_cases hn : result.pagination.has_next_page
      · cases hd2 : result.pagination.data with
        | none =>
          simpa [crawlRef, hn, hd2] using freshList_mem_truthy result.list_widgets sent
        | some d =>
          intro v hv
          simp only [crawlRef, hn, hd2, if_true, List.mem_append] at hv
          rcases hv with hv | hv
          · exact freshList_mem_truthy result.list_widgets sent v hv
          · exact ih (freshList result.list_widgets sent).2 v hv
      · simpa [crawlRef, hn] using freshList_mem_truthy result.list_widgets sent

theorem crawlRef_append_failure (good : List SearchResult)
    (rest : List (Option SearchResult)) (sent : Finset String)
    (h : ∀ r ∈ good, r.pagination.has_next_page = true ∧ r.pagination.data.isSome) :
    crawlRef (good.map some ++ none :: rest) sent = crawlRef (good.map some) sent := by
  induction good generalizing sent with
  | nil => simp [crawlRef]
  | cons r good ih =>
    obtain ⟨hn, hd⟩ := h r (by simp)
    obtain ⟨d, hd2⟩ := Option.isSome_iff_exists.mp hd
    have ih2 := ih (freshList r.list_widgets sent).2
      (fun x hx => h x (List.mem_cons_of_mem r hx))
    simp [crawlRef, hn, hd2, ih2]

theorem sendLoop_map_chat_id (sendOk : String → Bool) (img : Bool) (l : List String) :
    (sendLoop sendOk img l).map SendAttempt.chat_id = l := by
  induction l with
  | nil => simp [sendLoop]
  | cons c cs ih => cases img <;> simp [sendLoop, SendAttempt.chat_id, ih]

theorem sendLoop_map_ok (sendOk : String → Bool) (img : Bool) (l : List String) :
    (sendLoop sendOk img l).map SendAttempt.ok = l.map sendOk := by
  induction l with
  | nil => simp [sendLoop]
  | cons c cs ih => cases img <;> simp [sendLoop, SendAttempt.ok, ih]

/-- Claim C1: in the concrete two-page crawl where page 1 (newest) yields
identifiers C and B, page 2 (oldest) yields A, and the previously loaded
seen set is the singleton B, get_new_posts produces exactly the fresh set
of A and C, returns the fresh listings in the order A then C, and the
resulting seen set is exactly A, B, C. -/
theorem two_page_concrete_crawl :
    freshTokens (get_new_posts (FileState.valid ["B"]) [some page1, some page2]).1 = {"A", "C"}
    ∧ (get_new_posts (FileState.valid ["B"]) [some page1, some page2]).1.map (fun w => w.data.token)
        = [some "A", some "C"]
    ∧ (get_new_posts (FileState.valid ["B"]) [some page1, some page2]).2 = {"A", "B", "C"} := by
  decide

/-- Claim C2: in every cycle the seen set get_new_posts hands back for
saving is the union of the previously loaded set and the identifiers of
the listings accepted in that cycle — never a strict subset — so it is a
superset of the loaded set, and across every cycle the persisted seen set
only grows, whatever the delivery outcomes. -/
theorem seen_set_union_and_monotone (fs : FileState) (upstream : List (Option SearchResult)) :
    (get_new_posts fs upstream).2
        = load_sent_posts fs ∪ freshTokens (get_new_posts fs upstream).1
    ∧ load_sent_posts fs ⊆ (get_new_posts fs upstream).2
    ∧ ∀ sendOk : String → Bool, ∀ chat_ids : List String,
        load_sent_posts fs ⊆ load_sent_posts (periodic_check sendOk chat_ids fs upstream).1 := by
  have hsub : load_sent_posts fs ⊆ (get_new_posts fs upstream).2 := by
    rw [get_new_posts_eq]
    simp only
    rw [crawlRef_snd]
    exact Finset.subset_union_left
  refine ⟨?_, hsub, ?_⟩
  · rw [get_new_posts_eq]
    simpa [freshTokens_reverse] using crawlRef_snd_fresh upstream (load_sent_posts fs)
  · intro sendOk chat_ids
    by_cases he : (get_new_posts fs upstream).1.isEmpty
    · simp [periodic_check, he]
    · simpa [periodic_check, he, load_save] using hsub

/-- Claim C3: for every upstream page sequence ordered newest-first (the
widgets the crawl traverses are strictly decreasing in recency rank), the
fresh listings get_new_posts returns are ordered strictly oldest-to-newest
across the entire fresh set, regardless of page boundaries — the
newest-first traversal order is reversed exactly once before delivery. -/
theorem delivered_oldest_first (fs : FileState) (upstream : List (Option SearchResult))
    (ts : Widget → Nat)
    (h : (visitedWidgets upstream).Pairwise fun a b => ts b < ts a) :
    ((get_new_posts fs upstream).1).Pairwise fun a b => ts a < ts b := by
  rw [get_new_posts_eq]
  simp only
  rw [List.pairwise_reverse]
  exact List.Pairwise.sublist (crawlRef_sublist upstream (load_sent_posts fs)) h

/-- Witness for delivered_oldest_first at the concrete two-page crawl,
with recency ranks C newest, then B, then A. -/
theorem delivered_oldest_first_witness :
    ((get_new_posts (FileState.valid ["B"]) [some page1, some page2]).1).Pairwise
      (fun a b => tsDemo a < tsDemo b) :=
  delivered_oldest_first (FileState.valid ["B"]) [some page1, some page2] tsDemo (by decide)

/-- Claim C4 counterexample: a cycle whose first fetch succeeds and that
finds zero fresh listings makes no save call — periodic_check reports
save_sent_posts uncalled and leaves the file untouched — refuting the
claim that the save happens unconditionally after the delivery loop. -/
theorem save_skipped_on_zero_fresh :
    (get_new_posts (FileState.valid ["B"]) [some pageOnlyB]).1 = []
    ∧ (periodic_check (fun _ => true) ["7"] (FileState.valid ["B"]) [some pageOnlyB]).2.1 = false
    ∧ (periodic_check (fun _ => true) ["7"] (FileState.valid ["B"]) [some pageOnlyB]).1
        = FileState.valid ["B"] := by
  decide

/-- Claim C4 amended: save_sent_posts is called exactly when the cycle
found at least one fresh listing; with zero fresh listings the save call
is skipped and the file keeps its previous state, which carries exactly
the seen set the skipped save would have written. -/
theorem save_called_iff_fresh (sendOk : String → Bool) (chat_ids : List String)
    (fs : FileState) (upstream : List (Option SearchResult)) :
    (periodic_check sendOk chat_ids fs upstream).2.1
        = !(get_new_posts fs upstream).1.isEmpty
    ∧ load_sent_posts (periodic_check sendOk chat_ids fs upstream).1
        = load_sent_posts fs ∪ freshTokens (get_new_posts fs upstream).1 := by
  have hu : (get_new_posts fs upstream).2
      = load_sent_posts fs ∪ freshTokens (get_new_posts fs upstream).1 := by
    rw [get_new_posts_eq]
    simpa [freshTokens_reverse] using crawlRef_snd_fresh upstream (load_sent_posts fs)
  by_cases he : (get_new_posts fs upstream).1.isEmpty
  · have he' : (get_new_posts fs upstream).1 = [] := List.isEmpty_iff.mp he
    exact ⟨by simp [periodic_check, he], by simp [periodic_check, he, he', freshTokens]⟩
  · exact ⟨by simp [periodic_check, he], by simp [periodic_check, he, load_save, hu]⟩

/-- Claim C5: when the fetches of the leading pages succeed (each with a
next page announced) and a subsequent fetch fails, get_new_posts returns
exactly what the crawl of those prior pages accumulated — the failure
tail changes nothing — every returned fresh identifier is in the
returned seen set, and that seen set survives a save and reload
unchanged. -/
theorem subsequent_failure_keeps_accumulated (fs : FileState) (good : List SearchResult)
    (rest : List (Option SearchResult))
    (h : ∀ r ∈ good, r.pagination.has_next_page = true ∧ r.pagination.data.isSome) :
    get_new_posts fs (good.map some ++ none :: rest) = get_new_posts fs (good.map some)
    ∧ freshTokens (get_new_posts fs (good.map some ++ none :: rest)).1
        ⊆ (get_new_posts fs (good.map some ++ none :: rest)).2
    ∧ load_sent_posts (save_sent_posts (get_new_posts fs (good.map some ++ none :: rest)).2)
        = (get_new_posts fs (good.map some ++ none :: rest)).2 := by
  refine ⟨?_, ?_, load_save _⟩
  · rw [get_new_posts_eq, get_new_posts_eq, crawlRef_append_failure good rest _ h]
  · rw [get_new_posts_eq]
    simp only
    rw [freshTokens_reverse, crawlRef_snd_fresh]
    exact Finset.subset_union_right

/-- Witness for subsequent_failure_keeps_accumulated: one successful page
followed by a transport failure, from a cold store. -/
theorem subsequent_failure_keeps_accumulated_witness :
    get_new_posts FileState.missing ([page1].map some ++ none :: [])
        = get_new_posts FileState.missing ([page1].map some)
    ∧ freshTokens (get_new_posts FileState.missing ([page1].map some ++ none :: [])).1
        ⊆ (get_new_posts FileState.missing ([page1].map some ++ none :: [])).2
    ∧ load_sent_posts (save_sent_posts (get_new_posts FileState.missing ([page1].map some ++ none :: [])).2)
        = (get_new_posts FileState.missing ([page1].map some ++ none :: [])).2 :=
  subsequent_failure_keeps_accumulated FileState.missing [page1] [] (by decide)

/-- Claim C6: running a second cycle against the same upstream responses
after the first cycle's seen set was successfully persisted yields zero
fresh listings. -/
theorem second_cycle_zero_fresh (fs : FileState) (upstream : List (Option SearchResult)) :
    (get_new_posts (save_sent_posts (get_new_posts fs upstream).2) upstream).1 = [] := by
  rw [get_new_posts_eq]
  simp only
  rw [load_save, get_new_posts_eq]
  simp only
  rw [crawlRef_snd, crawlRef_of_subset upstream _ Finset.subset_union_right]
  rfl

/-- Claim C7: load_sent_posts returns the empty set on a missing file, on
unparsable contents and on a read error — as a total function it never
propagates a failure to its caller — and consequently a cold-start cycle
(no persisted file) treats every truthy identifier the crawl visits as
fresh. -/
theorem load_empty_on_failure_cold_start :
    load_sent_posts FileState.missing = ∅
    ∧ load_sent_posts FileState.corrupt = ∅
    ∧ load_sent_posts FileState.ioError = ∅
    ∧ ∀ upstream : List (Option SearchResult),
        freshTokens (get_new_posts FileState.missing upstream).1 = visitedTokens upstream := by
  refine ⟨rfl, rfl, rfl, ?_⟩
  intro upstream
  have h1 : (get_new_posts FileState.missing upstream).2 = visitedTokens upstream := by
    rw [get_new_posts_eq]
    simp only
    rw [crawlRef_snd]
    simp [load_sent_posts]
  have h2 : (get_new_posts FileState.missing upstream).2
      = freshTokens (get_new_posts FileState.missing upstream).1 := by
    rw [get_new_posts_eq]
    simp only
    rw [freshTokens_reverse, crawlRef_snd_fresh]
    simp [load_sent_posts]
  rw [← h2, h1]

/-- Claim C8: per-recipient sends are isolated — for every listing the
attempt trace addresses exactly the configured chat ids in order, whatever
the individual outcomes; one delivery trace is produced for every fresh
listing; and the persisted file state is the same under any two outcome
environments, so identifiers stay seen even when every delivery failed. -/
theorem recipient_isolation (sendOk sendOk2 : String → Bool) (post : Widget)
    (chat_ids : List String) (fs : FileState) (upstream : List (Option SearchResult)) :
    ((send_to_telegram_users sendOk post chat_ids).2.2).map SendAttempt.chat_id = chat_ids
    ∧ ((periodic_check sendOk chat_ids fs upstream).2.2).length
        = (if (get_new_posts fs upstream).1.isEmpty then 0
           else (get_new_posts fs upstream).1.length)
    ∧ (periodic_check sendOk chat_ids fs upstream).1
        = (periodic_check sendOk2 chat_ids fs upstream).1 := by
  refine ⟨?_, ?_, ?_⟩
  · simp [send_to_telegram_users, sendLoop_map_chat_id]
  · by_cases he : (get_new_posts fs upstream).1.isEmpty
    · simp [periodic_check, he]
    · simp [periodic_check, he]
  · by_cases he : (get_new_posts fs upstream).1.isEmpty
    · simp [periodic_check, he]
    · simp [periodic_check, he]

/-- Claim C9 counterexample: with two recipients, an environment in which
every send fails and one in which every send succeeds give
send_to_telegram_users the same return value True — the Python return
value is one aggregate boolean carrying no per-recipient outcome,
refuting the per-recipient outcome map contract. -/
theorem deliver_returns_no_outcome_map :
    (send_to_telegram_users (fun _ => false) widgetB ["1", "2"]).1 = true
    ∧ (send_to_telegram_users (fun _ => true) widgetB ["1", "2"]).1 = true := by
  exact ⟨rfl, rfl⟩

/-- Claim C9 amended: send_to_telegram_users returns the single aggregate
boolean True for every input; the per-recipient outcomes exist only in
the log of attempts — exactly one logged outcome per recipient — and are
not reflected in the return value. -/
theorem deliver_aggregate_bool (sendOk : String → Bool) (post : Widget)
    (chat_ids : List String) :
    (send_to_telegram_users sendOk post chat_ids).1 = true
    ∧ ((send_to_telegram_users sendOk post chat_ids).2.2).map SendAttempt.ok
        = chat_ids.map sendOk :=
  ⟨rfl, by simp [send_to_telegram_users, sendLoop_map_ok]⟩

/-- Claim C10: a POST_ROW widget whose token is absent or empty (falsy)
is skipped entirely by the widget loop — processing it changes neither
new_posts nor sent_posts — every listing get_new_posts returns carries a
truthy token, and the empty identifier is never among the returned fresh
identifiers. -/
theorem falsy_token_widget_skipped (w : Widget) (ws np : List Widget) (sent : Finset String)
    (fs : FileState) (upstream : List (Option SearchResult))
    (hw : w.widget_type = "POST_ROW") (ht : optTruthy w.data.token = false) :
    processWidgets (w :: ws) np sent = processWidgets ws np sent
    ∧ (∀ v ∈ (get_new_posts fs upstream).1, optTruthy v.data.token = true)
    ∧ "" ∉ freshTokens (get_new_posts fs upstream).1 := by
  refine ⟨?_, ?_, ?_⟩
  · cases htok : w.data.token with
    | none => simp [processWidgets, hw, htok]
    | some t =>
      have h1 : t = "" := by simpa [optTruthy, htok] using ht
      simp [processWidgets, hw, htok, h1]
  · intro v hv
    rw [get_new_posts_eq] at hv
    simp only at hv
    rw [List.mem_reverse] at hv
    exact crawlRef_mem_truthy upstream (load_sent_posts fs) v hv
  · intro hmem
    have hmem2 : "" ∈ freshTokens (crawlRef upstream (load_sent_posts fs)).1 := by
      rw [get_new_posts_eq] at hmem
      simpa [freshTokens_reverse] using hmem
    simp only [freshTokens, List.mem_toFinset, List.mem_filterMap] at hmem2
    obtain ⟨v, hv, hv2⟩ := hmem2
    have hvt := crawlRef_mem_truthy upstream (load_sent_posts fs) v hv
    rw [hv2] at hvt
    simp [optTruthy] at hvt

/-- Witness for falsy_token_widget_skipped: a tokenless POST_ROW widget
ahead of an empty tail, in a cold-store cycle with no upstream pages. -/
theorem falsy_token_widget_skipped_witness :
    processWidgets [widgetNoToken] [] ∅ = processWidgets [] [] ∅
    ∧ (∀ v ∈ (get_new_posts FileState.missing []).1, optTruthy v.data.token = true)
    ∧ "" ∉ freshTokens (get_new_posts FileState.missing []).1 :=
  falsy_token_widget_skipped widgetNoToken [] [] ∅ FileState.missing []
    (by decide) (by decide)

end DivarBot
